import Mathlib

/-
Verification of the payment-gateway backend (src/backend/server.js).

The server is embedded shallowly: JSON values are a Lean inductive, each
Express route handler becomes a pure function from the parsed request body
and an oracle describing the outcome of each outbound `fetch` to the HTTP
response together with the ordered trace of outbound calls the handler made.
JavaScript truthiness (the `!x` tests the code uses for validation) is
modelled by `Json.truthy`; an absent object field is `Option.none`, matching
the `undefined` a JS property access yields.
-/

set_option autoImplicit false

namespace PayServer

/-- JSON values as delivered by `express.json()` / `response.json()`.
Numbers are modelled as integers; no claim depends on fractional values. -/
inductive Json where
  | null : Json
  | bool : Bool → Json
  | num : Int → Json
  | str : String → Json
  | arr : List Json → Json
  | obj : List (String × Json) → Json
deriving Repr

/-- JS property access on a receiver known not to be null (optional
chaining, or a value already guarded): `none` models `undefined` (absent
field, or a non-object receiver such as a string or number). Plain access
on a possibly-null value is `Json.accessField` below, which throws on
null. -/
def Json.getField : Json → String → Option Json
  | .obj fs, k => (fs.find? (fun p => p.1 == k)).map (fun p => p.2)
  | _, _ => none

/-- JS truthiness of a defined value (`NaN` is not representable here). -/
def Json.truthy : Json → Bool
  | .null => false
  | .bool b => b
  | .num n => n != 0
  | .str s => s != ""
  | .arr _ => true
  | .obj _ => true

/-- JS truthiness of a possibly-`undefined` value. -/
def truthyOpt : Option Json → Bool
  | none => false
  | some j => j.truthy

/-- JS string coercion as used in template literals and `.toString()`.
Array and object coercions are approximated; no claim exercises them. -/
def Json.jsStr : Json → String
  | .null => "null"
  | .bool b => if b then "true" else "false"
  | .num n => toString n
  | .str s => s
  | .arr _ => ""
  | .obj _ => "[object Object]"

/-- Interpolating a possibly-`undefined` value into a template literal. -/
def jsTemplate : Option Json → String
  | none => "undefined"
  | some j => j.jsStr

/-- Outcome of one `await fetch(...)` followed by `await response.json()`:
either the pair throws (network or JSON-parse failure, carrying the runtime
error message), or it yields the `response.ok` flag and the parsed body. -/
inductive FetchResult where
  | throws : String → FetchResult
  | success : Bool → Json → FetchResult
deriving Repr

/-- One outbound HTTP call as issued by a handler: URL, method, the bearer
token of the Authorization header when one is sent, and the JSON payload
when one is sent. (The token endpoint Basic credentials and form body are
not observable by any claim and are left out of the record.) -/
structure FetchCall where
  url : String
  method : String
  bearer : Option String
  payload : Option Json
deriving Repr

/-- An Express response: `res.status(s).json(b)`; plain `res.json(b)` is
status 200. -/
structure HttpResponse where
  status : Nat
  body : Json
deriving Repr

/-- A value thrown inside a route handler try block. -/
inductive Thrown where
  | fetchFailed : String → Thrown
  | typeError : String → Thrown
  | jsError : String → Thrown
deriving Repr, DecidableEq

/-- `error.message` as read by the catch blocks. For a fetch failure the
message is whatever the runtime supplied. -/
def Thrown.message : Thrown → String
  | .fetchFailed m => m
  | .typeError m => m
  | .jsError m => m

/-- Plain JS property access `v.k`: a null receiver throws a TypeError (the
message is the representative runtime text); any other receiver yields the
field as `Json.getField` does. (`undefined` receivers do not arise: every
accessed value is a parsed JSON body.) -/
def Json.accessField : Json → String → Except Thrown (Option Json)
  | .null, k =>
      Except.error (Thrown.typeError
        ("Cannot read properties of null (reading " ++ k ++ ")"))
  | v, k => Except.ok (v.getField k)

/-- `PAYPAL_BASE_URL` defaults to the sandbox endpoint (server.js line 15). -/
def PAYPAL_BASE_URL : String := "https://api-m.sandbox.paypal.com"

def payPalTokenUrl : String := PAYPAL_BASE_URL ++ "/v1/oauth2/token"

/-- The token-exchange call issued by `getPayPalAccessToken` on every
invocation (server.js lines 31-38). -/
def payPalTokenCall : FetchCall :=
  { url := payPalTokenUrl, method := "POST", bearer := none, payload := none }

/-- The message of the error thrown on a non-ok token response:
the literal prefix `PayPal auth failed: ` followed by the (already read)
error_description when truthy, else `Unknown error`. -/
def authFailMessage (d : Option Json) : String :=
  "PayPal auth failed: " ++ (if truthyOpt d then jsTemplate d else "Unknown error")

/-- `getPayPalAccessToken` (server.js lines 27-50): performs the token
exchange; on a thrown fetch/parse error the error is logged and rethrown. On
a non-ok response it reads `data.error_description` — a TypeError if the
body is JSON null — and throws `PayPal auth failed: ...`. Otherwise it
returns `data.access_token`: a TypeError if the body is JSON null, and
`undefined` (`none`) with no error raised when the field is merely
absent. -/
def getPayPalAccessToken : FetchResult → Except Thrown (Option Json)
  | .throws m => Except.error (Thrown.fetchFailed m)
  | .success ok data =>
      if ok then data.accessField "access_token"
      else
        match data.accessField "error_description" with
        | Except.error e => Except.error e
        | Except.ok d => Except.error (Thrown.jsError (authFailMessage d))

/-! ## Paystack routes -/

def paystackInitUrl : String := "https://api.paystack.co/transaction/initialize"

/-- The body sent to the Paystack initialize endpoint (server.js lines
69-73): the client-supplied `email` and `amount` plus a hard-coded callback URL. -/
def paystackInitPayload (email amount : Json) : Json :=
  .obj [("email", email), ("amount", amount),
        ("callback_url", .str "https://remboglow.com/")]

/-- The validation test of POST /api/paystack/pay (line 59):
`!email || !amount` fails the request. -/
def paystackPayValid (reqBody : Json) : Bool :=
  truthyOpt (reqBody.getField "email") && truthyOpt (reqBody.getField "amount")

/-- POST /api/paystack/pay (server.js lines 55-88). `secret` is the
environment-provided Paystack key; `upstream` the outcome of the single
outbound call. Returns the response and the ordered trace of calls made. -/
def paystackPay (secret : String) (reqBody : Json) (upstream : FetchResult) :
    HttpResponse × List FetchCall :=
  let email := reqBody.getField "email"
  let amount := reqBody.getField "amount"
  if !(truthyOpt email) || !(truthyOpt amount) then
    (⟨400, .obj [("error", .str "Email and amount are required")]⟩, [])
  else
    let call : FetchCall :=
      { url := paystackInitUrl, method := "POST", bearer := some secret,
        payload := some (paystackInitPayload (email.getD .null) (amount.getD .null)) }
    match upstream with
    | .throws _ =>
        (⟨500, .obj [("error", .str "Payment initialization failed")]⟩, [call])
    | .success _ data =>
        match data.accessField "status" with
        | Except.error _ =>
            -- reading data.status on a JSON-null body throws; the catch of
            -- lines 84-87 answers the same generic 500 as a fetch failure
            (⟨500, .obj [("error", .str "Payment initialization failed")]⟩, [call])
        | Except.ok st =>
            if !(truthyOpt st) then
              (⟨400, .obj [("error", .str "Payment initialization failed"),
                           ("details", data)]⟩, [call])
            else
              (⟨200, data⟩, [call])

def paystackVerifyUrl (reference : String) : String :=
  "https://api.paystack.co/transaction/verify/" ++ reference

/-- The test `data?.data?.status === "success"` (line 101). -/
def nestedStatusSuccess (data : Json) : Bool :=
  match (data.getField "data").bind (fun d => d.getField "status") with
  | some (.str s) => s == "success"
  | _ => false

/-- GET /verify/:reference (server.js lines 91-111). -/
def verifyReference (secret reference : String) (upstream : FetchResult) :
    HttpResponse × List FetchCall :=
  let call : FetchCall :=
    { url := paystackVerifyUrl reference, method := "GET",
      bearer := some secret, payload := none }
  match upstream with
  | .throws _ =>
      (⟨500, .obj [("error", .str "Verification failed")]⟩, [call])
  | .success _ data =>
      if nestedStatusSuccess data then
        (⟨200, .obj [("data", .obj [("status", .str "success"),
                                    ("reference", .str reference)])]⟩, [call])
      else
        (⟨200, .obj [("data", .obj [("status", .str "failed"),
                                    ("reference", .str reference)])]⟩, [call])

/-! ## PayPal routes -/

/-- `JSON.stringify` / `res.json` drop keys whose value is `undefined`. -/
def objDrop (fields : List (String × Option Json)) : Json :=
  .obj (fields.filterMap (fun p => p.2.map (fun v => (p.1, v))))

def payPalOrdersUrl : String := PAYPAL_BASE_URL ++ "/v2/checkout/orders"

/-- The order payload built by POST /api/paypal/create-order (lines
128-145); `amount.toString()` is JS string coercion of a truthy value. -/
def orderData (amount currency returnUrl cancelUrl : Json) : Json :=
  .obj [("intent", .str "CAPTURE"),
        ("purchase_units",
          .arr [.obj [("amount", .obj [("currency_code", currency),
                                       ("value", .str amount.jsStr)])]]),
        ("application_context",
          .obj [("brand_name", .str "Face Fit"),
                ("landing_page", .str "BILLING"),
                ("user_action", .str "PAY_NOW"),
                ("return_url", returnUrl),
                ("cancel_url", cancelUrl)])]

/-- `link.rel === "approve"` (line 167). -/
def relIsApprove (l : Json) : Bool :=
  match l.getField "rel" with
  | some (.str s) => s == "approve"
  | _ => false

/-- `data.links.find(link => link.rel === "approve")` (line 167): a
TypeError is thrown when `data.links` is not an array (the representative
message stands for the runtime-generated text). -/
def findApprovalLink (data : Json) : Except Thrown (Option Json) :=
  match data.getField "links" with
  | some (.arr links) => Except.ok (links.find? relIsApprove)
  | _ => Except.error (Thrown.typeError "data.links.find is not a function")

/-- Whether the links of the upstream payload hold an entry with relation
"approve". -/
def hasApproveLink (data : Json) : Bool :=
  match data.getField "links" with
  | some (.arr links) => links.any relIsApprove
  | _ => false

/-- The validation test of POST /api/paypal/create-order (line 120):
`!amount || !returnUrl || !cancelUrl` fails the request. -/
def createOrderValid (reqBody : Json) : Bool :=
  truthyOpt (reqBody.getField "amount") && truthyOpt (reqBody.getField "returnUrl")
    && truthyOpt (reqBody.getField "cancelUrl")

/-- POST /api/paypal/create-order (server.js lines 116-186). `tokenRes` is
the outcome of the token-exchange fetch, `orderRes` of the order-creation
fetch; the trace records the calls actually issued, in order. -/
def createOrder (reqBody : Json) (tokenRes orderRes : FetchResult) :
    HttpResponse × List FetchCall :=
  let amount := reqBody.getField "amount"
  let currency := (reqBody.getField "currency").getD (.str "USD")
  let returnUrl := reqBody.getField "returnUrl"
  let cancelUrl := reqBody.getField "cancelUrl"
  if !(truthyOpt amount) || !(truthyOpt returnUrl) || !(truthyOpt cancelUrl) then
    (⟨400, .obj [("error", .str "Amount, returnUrl, and cancelUrl are required")]⟩, [])
  else
    match getPayPalAccessToken tokenRes with
    | Except.error e =>
        (⟨500, .obj [("error", .str "Failed to create PayPal order"),
                     ("message", .str e.message)]⟩, [payPalTokenCall])
    | Except.ok accessToken =>
        let call : FetchCall :=
          { url := payPalOrdersUrl, method := "POST",
            bearer := some (jsTemplate accessToken),
            payload := some (orderData (amount.getD .null) currency
                              (returnUrl.getD .null) (cancelUrl.getD .null)) }
        match orderRes with
        | .throws m =>
            (⟨500, .obj [("error", .str "Failed to create PayPal order"),
                         ("message", .str m)]⟩, [payPalTokenCall, call])
        | .success ok data =>
            if !ok then
              (⟨400, .obj [("error", .str "PayPal order creation failed"),
                           ("details", data)]⟩, [payPalTokenCall, call])
            else
              match findApprovalLink data with
              | Except.error e =>
                  (⟨500, .obj [("error", .str "Failed to create PayPal order"),
                               ("message", .str e.message)]⟩, [payPalTokenCall, call])
              | Except.ok none =>
                  (⟨500, .obj [("error", .str "Failed to create PayPal order"),
                               ("message", .str "No approval URL found in PayPal response")]⟩,
                   [payPalTokenCall, call])
              | Except.ok (some approvalLink) =>
                  (⟨200, objDrop [("orderId", data.getField "id"),
                                  ("approvalUrl", approvalLink.getField "href"),
                                  ("status", data.getField "status")]⟩,
                   [payPalTokenCall, call])

def payPalCaptureUrl (orderId : String) : String :=
  PAYPAL_BASE_URL ++ "/v2/checkout/orders/" ++ orderId ++ "/capture"

/-- POST /api/paypal/capture-order (server.js lines 189-235). -/
def captureOrder (reqBody : Json) (tokenRes captureRes : FetchResult) :
    HttpResponse × List FetchCall :=
  let orderId := reqBody.getField "orderId"
  if !(truthyOpt orderId) then
    (⟨400, .obj [("error", .str "Order ID is required")]⟩, [])
  else
    match getPayPalAccessToken tokenRes with
    | Except.error e =>
        (⟨500, .obj [("error", .str "Failed to capture PayPal payment"),
                     ("message", .str e.message)]⟩, [payPalTokenCall])
    | Except.ok accessToken =>
        let call : FetchCall :=
          { url := payPalCaptureUrl (jsTemplate orderId), method := "POST",
            bearer := some (jsTemplate accessToken), payload := none }
        match captureRes with
        | .throws m =>
            (⟨500, .obj [("error", .str "Failed to capture PayPal payment"),
                         ("message", .str m)]⟩, [payPalTokenCall, call])
        | .success ok data =>
            if !ok then
              (⟨400, .obj [("error", .str "PayPal capture failed"),
                           ("details", data)]⟩, [payPalTokenCall, call])
            else
              -- building the success body reads data.id first: a JSON-null
              -- body throws there and the catch answers 500
              match data.accessField "id" with
              | Except.error e =>
                  (⟨500, .obj [("error", .str "Failed to capture PayPal payment"),
                               ("message", .str e.message)]⟩, [payPalTokenCall, call])
              | Except.ok dataId =>
                  (⟨200, objDrop [("success", some (.bool true)),
                                  ("orderId", dataId),
                                  ("status", data.getField "status"),
                                  ("payer", data.getField "payer"),
                                  ("purchase_units", data.getField "purchase_units")]⟩,
                   [payPalTokenCall, call])

def payPalOrderDetailUrl (orderId : String) : String :=
  PAYPAL_BASE_URL ++ "/v2/checkout/orders/" ++ orderId

/-- GET /api/paypal/verify/:orderId (server.js lines 238-279); `orderId` is
the path parameter, always a string. -/
def paypalVerify (orderId : String) (tokenRes detailRes : FetchResult) :
    HttpResponse × List FetchCall :=
  match getPayPalAccessToken tokenRes with
  | Except.error e =>
      (⟨500, .obj [("error", .str "Failed to verify PayPal payment"),
                   ("message", .str e.message)]⟩, [payPalTokenCall])
  | Except.ok accessToken =>
      let call : FetchCall :=
        { url := payPalOrderDetailUrl orderId, method := "GET",
          bearer := some (jsTemplate accessToken), payload := none }
      match detailRes with
      | .throws m =>
          (⟨500, .obj [("error", .str "Failed to verify PayPal payment"),
                       ("message", .str m)]⟩, [payPalTokenCall, call])
      | .success ok data =>
          if !ok then
            (⟨400, .obj [("error", .str "PayPal verification failed"),
                         ("details", data)]⟩, [payPalTokenCall, call])
          else
            -- building the success body reads data.id first: a JSON-null
            -- body throws there and the catch answers 500
            match data.accessField "id" with
            | Except.error e =>
                (⟨500, .obj [("error", .str "Failed to verify PayPal payment"),
                             ("message", .str e.message)]⟩, [payPalTokenCall, call])
            | Except.ok dataId =>
                (⟨200, objDrop [("orderId", dataId),
                                ("status", data.getField "status"),
                                ("create_time", data.getField "create_time"),
                                ("update_time", data.getField "update_time"),
                                ("payer", data.getField "payer"),
                                ("purchase_units", data.getField "purchase_units")]⟩,
                 [payPalTokenCall, call])

/-- A call trace whose first call is the PayPal token exchange and whose
remaining calls are bearer-authenticated provider calls (none of them a
second token exchange): the invocation performed its own fresh token
exchange, strictly before any dependent provider call. -/
def tokenFirst (tr : List FetchCall) : Prop :=
  tr.head? = some payPalTokenCall ∧
    ∀ c ∈ tr.tail, c ≠ payPalTokenCall ∧ c.bearer ≠ none

/-! ## Claims -/

/-- Plain property access on any non-null receiver yields the field without
throwing. -/
theorem accessField_of_ne_null (v : Json) (k : String) (h : v ≠ .null) :
    v.accessField k = Except.ok (v.getField k) := by
  cases v <;> first | exact absurd rfl h | rfl

/-- C5: a POST /api/paystack/pay request in which email or amount is missing
is answered HTTP 400 with body error "Email and amount are required", and
the trace of outbound calls is empty — no upstream network call is made. -/
theorem C5_pay_missing_field_rejected (secret : String) (reqBody : Json)
    (upstream : FetchResult)
    (h : reqBody.getField "email" = none ∨ reqBody.getField "amount" = none) :
    paystackPay secret reqBody upstream =
      (⟨400, .obj [("error", .str "Email and amount are required")]⟩, []) := by
  rcases h with h | h <;> simp [paystackPay, h, truthyOpt]

/-- Witness for C5 at the empty request body. -/
theorem C5_witness :
    paystackPay "sk" (.obj []) (.throws "boom") =
      (⟨400, .obj [("error", .str "Email and amount are required")]⟩, []) :=
  C5_pay_missing_field_rejected "sk" _ _ (Or.inl rfl)

/-- C6: a POST /api/paypal/create-order request missing any of amount,
returnUrl, or cancelUrl is answered HTTP 400 with an empty call trace: no
token exchange and no network call of any kind precedes the validation
failure. -/
theorem C6_create_order_missing_field_rejected (reqBody : Json)
    (tokenRes orderRes : FetchResult)
    (h : reqBody.getField "amount" = none ∨ reqBody.getField "returnUrl" = none ∨
         reqBody.getField "cancelUrl" = none) :
    createOrder reqBody tokenRes orderRes =
      (⟨400, .obj [("error", .str "Amount, returnUrl, and cancelUrl are required")]⟩, []) := by
  rcases h with h | h | h <;> simp [createOrder, h, truthyOpt]

/-- Witness for C6 at the empty request body. -/
theorem C6_witness :
    createOrder (.obj []) (.throws "t") (.throws "o") =
      (⟨400, .obj [("error", .str "Amount, returnUrl, and cancelUrl are required")]⟩, []) :=
  C6_create_order_missing_field_rejected _ _ _ (Or.inl rfl)

/-- C2: for every GET /verify/:reference request whose upstream call
completes (does not throw), the response is HTTP 200 with body
data.status/data.reference, where status is "success" exactly when the
upstream payload has data.status equal to "success" (and "failed" in every
other case, whatever the HTTP ok flag), and reference echoes the path
parameter. -/
theorem C2_verify_status_mapping (secret reference : String) (ok : Bool)
    (data : Json) :
    (verifyReference secret reference (.success ok data)).1 =
      ⟨200, .obj [("data", .obj [("status", .str (if nestedStatusSuccess data
                                  then "success" else "failed")),
                                 ("reference", .str reference)])]⟩ := by
  by_cases h : nestedStatusSuccess data <;> simp [verifyReference, h]

/-- C4 counterexample: a transport failure of the upstream verify call is
answered HTTP 500 with the generic body error "Verification failed" — not
HTTP 400 and with no details passed through, contrary to the claim. -/
theorem C4_counterexample :
    (verifyReference "sk" "abc123" (.throws "socket hang up")).1 =
      ⟨500, .obj [("error", .str "Verification failed")]⟩ ∧
    (verifyReference "sk" "abc123" (.throws "socket hang up")).1.status ≠ 400 :=
  ⟨rfl, by decide⟩

/-- C4 (amended): the direct-charge verify operation never fails the HTTP
call on a "failed" business outcome (every completed upstream call is
answered HTTP 200), and a transport/parse failure of the upstream call is
answered HTTP 500 with the generic body error "Verification failed", no
details passed through. -/
theorem C4_verify_error_mapping (secret reference m : String) (ok : Bool)
    (data : Json) :
    (verifyReference secret reference (.success ok data)).1.status = 200 ∧
    (verifyReference secret reference (.throws m)).1 =
      ⟨500, .obj [("error", .str "Verification failed")]⟩ := by
  constructor
  · by_cases h : nestedStatusSuccess data <;> simp [verifyReference, h]
  · rfl

/-- C3 counterexample: when the token endpoint answers with HTTP success and
a body that omits access_token, the token-acquisition operation does not
fail — it returns the undefined token (`Except.ok none`), contrary to the
claim that an omitted access token yields an AuthError. -/
theorem C3_counterexample :
    (Json.obj []).getField "access_token" = none ∧
    getPayPalAccessToken (.success true (.obj [])) = Except.ok none :=
  ⟨rfl, rfl⟩

/-- C3 (amended): the token-acquisition operation rethrows a thrown
upstream call; on a non-success HTTP status it fails — with a TypeError
when the body is JSON null (reading error_description throws), and
otherwise with the AuthError carrying the upstream error_description when
one is supplied and a generic "Unknown error" when the field is absent. On
an HTTP success it fails with a TypeError when the body is JSON null
(reading access_token throws), and otherwise returns the access_token
field of the body, which is undefined (`none`) when omitted — no error is
raised in that case. -/
theorem C3_token_acquisition (m : String) (data : Json) :
    getPayPalAccessToken (.throws m) = Except.error (Thrown.fetchFailed m) ∧
    getPayPalAccessToken (.success true .null) =
      Except.error (Thrown.typeError
        "Cannot read properties of null (reading access_token)") ∧
    getPayPalAccessToken (.success false .null) =
      Except.error (Thrown.typeError
        "Cannot read properties of null (reading error_description)") ∧
    (data ≠ .null →
      getPayPalAccessToken (.success true data) =
        Except.ok (data.getField "access_token")) ∧
    (∀ s, data.getField "error_description" = some (.str s) → s ≠ "" →
      getPayPalAccessToken (.success false data) =
        Except.error (Thrown.jsError ("PayPal auth failed: " ++ s))) ∧
    (data ≠ .null → data.getField "error_description" = none →
      getPayPalAccessToken (.success false data) =
        Except.error (Thrown.jsError "PayPal auth failed: Unknown error")) := by
  refine ⟨rfl, rfl, rfl, ?_, ?_, ?_⟩
  · intro hnn
    simp [getPayPalAccessToken, accessField_of_ne_null data _ hnn]
  · intro s hs hne
    have hnn : data ≠ .null := by
      intro he; subst he; simp [Json.getField] at hs
    simp [getPayPalAccessToken, accessField_of_ne_null data _ hnn, hs,
      authFailMessage, truthyOpt, Json.truthy, jsTemplate, Json.jsStr, hne]
  · intro hnn hnone
    simp only [getPayPalAccessToken, accessField_of_ne_null data _ hnn, hnone,
      authFailMessage, truthyOpt, Bool.false_eq_true, if_false]
    rfl

/-- Witness for C3 (amended): a non-success token response carrying an
error_description yields the AuthError with that description. -/
theorem C3_witness :
    getPayPalAccessToken
        (.success false (.obj [("error_description", .str "bad creds")])) =
      Except.error (Thrown.jsError "PayPal auth failed: bad creds") :=
  (C3_token_acquisition "m"
      (.obj [("error_description", .str "bad creds")])).2.2.2.2.1
    "bad creds" rfl (by decide)

/-- C7 counterexample: a validated pay request whose upstream payload
carries the falsy-but-not-false status value 0 is answered HTTP 400 with
the upstream details, whereas the claim (flag literally false → 400,
otherwise verbatim) would demand the payload be returned verbatim with
HTTP 200. -/
theorem C7_counterexample :
    (paystackPay "sk" (.obj [("email", .str "a@b.com"), ("amount", .num 5000)])
        (.success true (.obj [("status", .num 0)]))).1 =
      ⟨400, .obj [("error", .str "Payment initialization failed"),
                  ("details", .obj [("status", .num 0)])]⟩ ∧
    (paystackPay "sk" (.obj [("email", .str "a@b.com"), ("amount", .num 5000)])
        (.success true (.obj [("status", .num 0)]))).1.status ≠ 200 :=
  ⟨rfl, by decide⟩

/-- C7 (amended): for every validated POST /api/paystack/pay request — if
the upstream call or parse fails, or the upstream payload is JSON null (so
reading its status property throws), the response is HTTP 500 with the
generic error body and no details; otherwise, if the status field of the
payload is falsy (false, 0, empty string, null, or missing) the response
is HTTP 400 carrying the upstream details; and if the status field is
truthy the upstream payload is returned verbatim as the HTTP 200 response
body. -/
theorem C7_pay_upstream_mapping (secret : String) (reqBody : Json)
    (m : String) (ok : Bool) (data : Json)
    (hval : paystackPayValid reqBody = true) :
    (paystackPay secret reqBody (.throws m)).1 =
      ⟨500, .obj [("error", .str "Payment initialization failed")]⟩ ∧
    (paystackPay secret reqBody (.success ok .null)).1 =
      ⟨500, .obj [("error", .str "Payment initialization failed")]⟩ ∧
    (data ≠ .null → truthyOpt (data.getField "status") = false →
      (paystackPay secret reqBody (.success ok data)).1 =
        ⟨400, .obj [("error", .str "Payment initialization failed"),
                    ("details", data)]⟩) ∧
    (truthyOpt (data.getField "status") = true →
      (paystackPay secret reqBody (.success ok data)).1 = ⟨200, data⟩) := by
  simp only [paystackPayValid, Bool.and_eq_true] at hval
  obtain ⟨h1, h2⟩ := hval
  refine ⟨by simp [paystackPay, h1, h2],
          by simp [paystackPay, h1, h2, Json.accessField], ?_, ?_⟩
  · intro hnn hs
    simp [paystackPay, h1, h2, accessField_of_ne_null data _ hnn, hs]
  · intro hs
    have hnn : data ≠ .null := by
      intro he; subst he; simp [Json.getField, truthyOpt] at hs
    simp [paystackPay, h1, h2, accessField_of_ne_null data _ hnn, hs]

/-- Witness for C7 (amended): a validated request with a truthy upstream
status gets the upstream payload back verbatim. -/
theorem C7_witness :
    (paystackPay "sk" (.obj [("email", .str "a@b.com"), ("amount", .num 5000)])
        (.success true (.obj [("status", .bool true), ("reference", .str "r1")]))).1 =
      ⟨200, .obj [("status", .bool true), ("reference", .str "r1")]⟩ :=
  (C7_pay_upstream_mapping "sk"
      (.obj [("email", .str "a@b.com"), ("amount", .num 5000)]) "m" true
      (.obj [("status", .bool true), ("reference", .str "r1")]) rfl).2.2.2 rfl

/-- When the upstream payload holds no link with relation "approve", the
search of line 167 either throws a TypeError (links absent or not an array)
or finds nothing. -/
theorem findApprovalLink_of_no_approve (data : Json)
    (h : hasApproveLink data = false) :
    findApprovalLink data =
        Except.error (Thrown.typeError "data.links.find is not a function") ∨
    findApprovalLink data = Except.ok none := by
  unfold hasApproveLink at h
  unfold findApprovalLink
  split
  case h_1 links heq =>
    right
    simp only [heq] at h
    refine congrArg Except.ok ?_
    rw [List.find?_eq_none]
    intro x hx hpx
    exact absurd (List.any_eq_true.mpr ⟨x, hx, hpx⟩) (by simp [h])
  case h_2 => left; rfl

/-- C1: a create-order request that passes validation and receives an HTTP
success from the upstream order-creation call, whose links contain no entry
with relation "approve", is answered HTTP 500 with an error/message body
(the InternalError envelope) and never with a success body. -/
theorem C1_missing_approve_link_internal_error (reqBody : Json)
    (tokenRes : FetchResult) (tok : Option Json) (data : Json)
    (hval : createOrderValid reqBody = true)
    (htok : getPayPalAccessToken tokenRes = Except.ok tok)
    (hlink : hasApproveLink data = false) :
    ∃ m, (createOrder reqBody tokenRes (.success true data)).1 =
      ⟨500, .obj [("error", .str "Failed to create PayPal order"),
                  ("message", .str m)]⟩ := by
  simp only [createOrderValid, Bool.and_eq_true] at hval
  obtain ⟨⟨h1, h2⟩, h3⟩ := hval
  rcases findApprovalLink_of_no_approve data hlink with hf | hf
  · exact ⟨"data.links.find is not a function",
      by simp [createOrder, h1, h2, h3, htok, hf, Thrown.message]⟩
  · exact ⟨"No approval URL found in PayPal response",
      by simp [createOrder, h1, h2, h3, htok, hf]⟩

/-- Witness for C1: a valid order request whose upstream success payload has
an empty links array ends in the 500 error/message envelope. -/
theorem C1_witness :
    ∃ m, (createOrder
        (.obj [("amount", .str "10.00"), ("returnUrl", .str "https://x"),
               ("cancelUrl", .str "https://y")])
        (.success true (.obj [("access_token", .str "tok")]))
        (.success true (.obj [("id", .str "OID"), ("links", .arr [])]))).1 =
      ⟨500, .obj [("error", .str "Failed to create PayPal order"),
                  ("message", .str m)]⟩ :=
  C1_missing_approve_link_internal_error
    (.obj [("amount", .str "10.00"), ("returnUrl", .str "https://x"),
           ("cancelUrl", .str "https://y")])
    (.success true (.obj [("access_token", .str "tok")]))
    (some (.str "tok"))
    (.obj [("id", .str "OID"), ("links", .arr [])]) rfl rfl rfl

/-- The trace of a validated create-order invocation satisfies
`tokenFirst`. -/
theorem createOrder_tokenFirst (reqBody : Json) (t o : FetchResult)
    (h : createOrderValid reqBody = true) :
    tokenFirst (createOrder reqBody t o).2 := by
  simp only [createOrderValid, Bool.and_eq_true] at h
  obtain ⟨⟨h1, h2⟩, h3⟩ := h
  unfold tokenFirst
  cases ht : getPayPalAccessToken t with
  | error e => simp [createOrder, h1, h2, h3, ht, payPalTokenCall]
  | ok tok =>
    cases o with
    | throws m => simp [createOrder, h1, h2, h3, ht, payPalTokenCall]
    | success ok data =>
      cases ok with
      | false => simp [createOrder, h1, h2, h3, ht, payPalTokenCall]
      | true =>
        cases hf : findApprovalLink data with
        | error e => simp [createOrder, h1, h2, h3, ht, hf, payPalTokenCall]
        | ok l =>
          cases l <;> simp [createOrder, h1, h2, h3, ht, hf, payPalTokenCall]

/-- The trace of a validated capture invocation satisfies `tokenFirst`. -/
theorem captureOrder_tokenFirst (reqBody : Json) (t o : FetchResult)
    (h : truthyOpt (reqBody.getField "orderId") = true) :
    tokenFirst (captureOrder reqBody t o).2 := by
  unfold tokenFirst
  cases ht : getPayPalAccessToken t with
  | error e => simp [captureOrder, h, ht, payPalTokenCall]
  | ok tok =>
    cases o with
    | throws m => simp [captureOrder, h, ht, payPalTokenCall]
    | success ok data =>
      cases ok with
      | false => simp [captureOrder, h, ht, payPalTokenCall]
      | true =>
        cases data <;>
          simp [captureOrder, h, ht, payPalTokenCall, Json.accessField]

/-- The trace of a verify-by-id invocation satisfies `tokenFirst` (no
validation precedes it). -/
theorem paypalVerify_tokenFirst (orderId : String) (t o : FetchResult) :
    tokenFirst (paypalVerify orderId t o).2 := by
  unfold tokenFirst
  cases ht : getPayPalAccessToken t with
  | error e => simp [paypalVerify, ht, payPalTokenCall]
  | ok tok =>
    cases o with
    | throws m => simp [paypalVerify, ht, payPalTokenCall]
    | success ok data =>
      cases ok with
      | false => simp [paypalVerify, ht, payPalTokenCall]
      | true =>
        cases data <;>
          simp [paypalVerify, ht, payPalTokenCall, Json.accessField]

/-- C8: within every delegated-order operation (create-order, capture,
verify-by-id) that reaches its token-needing stage, the invocation performs
its own token exchange — the first outbound call of its trace, so acquired
fresh with no caching — and every dependent provider call appears strictly
after it, never a second token exchange. -/
theorem C8_fresh_token_precedes_provider_call (orderBody capBody : Json)
    (t1 o1 t2 o2 t3 o3 : FetchResult) (orderId : String)
    (hc : createOrderValid orderBody = true)
    (hk : truthyOpt (capBody.getField "orderId") = true) :
    tokenFirst (createOrder orderBody t1 o1).2 ∧
    tokenFirst (captureOrder capBody t2 o2).2 ∧
    tokenFirst (paypalVerify orderId t3 o3).2 :=
  ⟨createOrder_tokenFirst orderBody t1 o1 hc,
   captureOrder_tokenFirst capBody t2 o2 hk,
   paypalVerify_tokenFirst orderId t3 o3⟩

/-- Witness for C8 at concrete valid requests. -/
theorem C8_witness :
    tokenFirst (createOrder
        (.obj [("amount", .str "10.00"), ("returnUrl", .str "https://x"),
               ("cancelUrl", .str "https://y")])
        (.success true (.obj [("access_token", .str "tok")]))
        (.success true (.obj []))).2 ∧
    tokenFirst (captureOrder (.obj [("orderId", .str "OID")])
        (.throws "a") (.throws "b")).2 ∧
    tokenFirst (paypalVerify "OID" (.success false (.obj [])) (.throws "c")).2 :=
  C8_fresh_token_precedes_provider_call
    (.obj [("amount", .str "10.00"), ("returnUrl", .str "https://x"),
           ("cancelUrl", .str "https://y")])
    (.obj [("orderId", .str "OID")])
    (.success true (.obj [("access_token", .str "tok")]))
    (.success true (.obj []))
    (.throws "a") (.throws "b") (.success false (.obj [])) (.throws "c")
    "OID" rfl rfl

/-- C9: required-field validation treats falsy values as missing — a pay
request whose amount field is present but 0 or whose email field is the
empty string, and a create-order request whose amount is 0 or whose
returnUrl or cancelUrl is the empty string, is rejected with the same
HTTP 400 response (and empty call trace) as when the field is absent. -/
theorem C9_falsy_fields_rejected (secret : String) (reqBody : Json)
    (u t o : FetchResult) :
    ((reqBody.getField "amount" = some (.num 0) ∨
      reqBody.getField "email" = some (.str "")) →
      paystackPay secret reqBody u =
        (⟨400, .obj [("error", .str "Email and amount are required")]⟩, [])) ∧
    ((reqBody.getField "amount" = some (.num 0) ∨
      reqBody.getField "returnUrl" = some (.str "") ∨
      reqBody.getField "cancelUrl" = some (.str "")) →
      createOrder reqBody t o =
        (⟨400, .obj [("error", .str "Amount, returnUrl, and cancelUrl are required")]⟩,
         [])) := by
  constructor
  · rintro (h | h) <;> simp [paystackPay, h, truthyOpt, Json.truthy]
  · rintro (h | h | h) <;> simp [createOrder, h, truthyOpt, Json.truthy]

/-- Witness for C9: amount present but 0 is rejected like a missing
amount. -/
theorem C9_witness :
    paystackPay "sk" (.obj [("email", .str "a@b.com"), ("amount", .num 0)])
        (.throws "x") =
      (⟨400, .obj [("error", .str "Email and amount are required")]⟩, []) :=
  (C9_falsy_fields_rejected "sk"
      (.obj [("email", .str "a@b.com"), ("amount", .num 0)])
      (.throws "x") (.throws "x") (.throws "x")).1 (Or.inl rfl)

/-- C10: every call a POST /api/paystack/pay invocation issues carries a
payload whose callback_url is the fixed string "https://remboglow.com/" —
whatever the fields in the client request body, no client input can change
the post-checkout redirect target. -/
theorem C10_fixed_callback_url (secret : String) (reqBody : Json)
    (u : FetchResult) (c : FetchCall)
    (hc : c ∈ (paystackPay secret reqBody u).2) :
    ∃ p, c.payload = some p ∧
      p.getField "callback_url" = some (.str "https://remboglow.com/") := by
  cases u with
  | throws m =>
      simp only [paystackPay] at hc
      split at hc
      · simp at hc
      · simp only [List.mem_singleton] at hc
        subst hc
        exact ⟨_, rfl, rfl⟩
  | success ok data =>
      simp only [paystackPay] at hc
      split at hc
      · simp at hc
      · split at hc
        · simp only [List.mem_singleton] at hc
          subst hc
          exact ⟨_, rfl, rfl⟩
        · split at hc <;>
            · simp only [List.mem_singleton] at hc
              subst hc
              exact ⟨_, rfl, rfl⟩

/-- Witness for C10 at a concrete valid request and its one outbound
call. -/
theorem C10_witness :
    ∃ p, ({ url := paystackInitUrl, method := "POST", bearer := some "sk",
            payload := some (paystackInitPayload (.str "a@b.com")
              (.num 5000)) } : FetchCall).payload = some p ∧
      p.getField "callback_url" = some (.str "https://remboglow.com/") :=
  C10_fixed_callback_url "sk"
    (.obj [("email", .str "a@b.com"), ("amount", .num 5000)])
    (.throws "x") _ (List.mem_singleton.mpr rfl)

end PayServer
